import Mathlib

/-!
Shallow embedding of `src/functions/main.py` (auto-trader-bot).

The program is a scheduled cloud function: it builds a Coinbase trading
client from two secrets, reads the available USD balance, and if the
balance covers the total of a fixed asset plan it places one market buy
per asset and emails a summary.

External collaborators (the Coinbase REST client, the wall clock, and the
SendGrid transport) are modelled as an `Env` record of oracles: each
fallible external call is an `Except String` value (`.error msg` models the
call raising an exception with message `msg`).  Python dictionaries
returned by the broker are modelled by the only key the program ever
reads (`'success'`, as an `Option Bool`: `none` models an absent key).
Python floats are modelled as `Rat`; the Python plan amounts are `Int`.
The observable behaviour of one invocation is collected in a `Run` trace.
-/

/-- Wall-clock time at second resolution, as used by
`datetime.now().strftime('%Y%m%d%H%M%S')`. -/
structure DateTime where
  year : Nat
  month : Nat
  day : Nat
  hour : Nat
  minute : Nat
  second : Nat
deriving DecidableEq, Repr

/-- Left-pad a string with zeros to the given width, as Python's
`%Y` / `%m` / ... format codes do. -/
def zeroPad (width : Nat) (s : String) : String :=
  String.mk (List.replicate (width - s.length) '0') ++ s

/-- Model of `datetime.strftime('%Y%m%d%H%M%S')`: the six fields,
zero-padded to widths 4,2,2,2,2,2 and concatenated. -/
def DateTime.strftimeYmdHMS (d : DateTime) : String :=
  zeroPad 4 (toString d.year) ++ zeroPad 2 (toString d.month) ++
  zeroPad 2 (toString d.day) ++ zeroPad 2 (toString d.hour) ++
  zeroPad 2 (toString d.minute) ++ zeroPad 2 (toString d.second)

/-- One account record as seen by `get_account_balance`:
`account.get('currency')` and the parsed
`account.get('available_balance', \x7b\x7d).get('value', 0)`.
`currency = none` models an account dict without a `'currency'` key;
`availableValue = none` models a missing `'available_balance'`/`'value'`
entry (Python then takes the default `0`). -/
structure Account where
  currency : Option String
  availableValue : Option Rat
deriving DecidableEq, Repr

/-- The broker's order record (`order.to_dict()`), modelled by the only
key the program reads: `'success'`.  `success = none` models a dict that
has no `'success'` key. -/
structure OrderDict where
  success : Option Bool
deriving DecidableEq, Repr

/-- The external world of one invocation:
* `apiKey`, `apiSecret` — the two brokerage secrets (`none` = absent);
* `getAccounts` — outcome of `client.get_accounts(limit=250)`
  (`.error` models the call raising);
* `marketOrderBuy` — outcome of
  `client.market_order_buy(client_order_id, product_id, quote_size)`
  as a function of the three request strings (`.error msg` models the
  call raising an exception with message `msg`);
* `now` — the wall clock: `now k` is the `datetime.now()` observed by the
  k-th `market_buy` call of the invocation;
* `emailTransport` — outcome of building the SendGrid client and calling
  `sg.send(message)` (`.error` models the transport raising). -/
structure Env where
  apiKey : Option String
  apiSecret : Option String
  getAccounts : Except String (List Account)
  marketOrderBuy : String → String → String → Except String OrderDict
  now : Nat → DateTime
  emailTransport : Except String Unit

/-- Python truthiness test `not api_key` for a secret value:
true for `None` and for the empty string. -/
def isFalsy : Option String → Bool
  | none => true
  | some s => s = ""

/-- The trading client object; it closes over the environment
(the `RESTClient` it wraps). -/
structure CoinbaseTrader where
  env : Env

/-- Embedding of `CoinbaseTrader.__init__`: raises `ValueError`
(modelled as `.error`) when either credential is falsy, otherwise
constructs the client. -/
def CoinbaseTrader.make (api_key api_secret : Option String) (env : Env) :
    Except String CoinbaseTrader :=
  if isFalsy api_key || isFalsy api_secret then
    .error "API credentials are not set"
  else
    .ok ⟨env⟩

/-- Scan of the accounts list in `get_account_balance`: return the
available value of the first account whose currency is `'USD'`
(missing value defaults to 0), or 0 if none matches. -/
def findUSDBalance : List Account → Rat
  | [] => 0
  | a :: rest =>
    if a.currency = some "USD" then (a.availableValue.getD 0) else findUSDBalance rest

/-- Embedding of `CoinbaseTrader.get_account_balance`: on any exception
from the account query the handler returns 0; otherwise the first USD
account's available value, or 0 when no USD account exists.  The
function is total: no error propagates to the caller. -/
def CoinbaseTrader.get_account_balance (t : CoinbaseTrader) : Rat :=
  match t.env.getAccounts with
  | .ok accounts => findUSDBalance accounts
  | .error _ => 0

/-- Result of `market_buy` as the Python caller sees it: either the
order dict (`isinstance(result, dict)` holds) or the failure string. -/
inductive BuyResult where
  | dict (d : OrderDict)
  | failStr (s : String)
deriving DecidableEq, Repr

/-- The request data of one `market_order_buy` submission. -/
structure OrderSubmission where
  client_order_id : String
  product_id : String
  quote_size : String
deriving DecidableEq, Repr

/-- Embedding of `CoinbaseTrader.market_buy`.  It builds the unique
client order id from the current timestamp and the asset name, submits
the order, and returns the order dict on success; on any exception it
returns the failure string `"Failed to purchase {product_id}: {e}"`
instead of raising.  The first component records the one submission
attempt the call makes. -/
def CoinbaseTrader.market_buy (t : CoinbaseTrader) (now : DateTime)
    (amount_usd : Int) (product_id asset_name : String) :
    OrderSubmission × BuyResult :=
  let unique_order_id := now.strftimeYmdHMS ++ "_" ++ asset_name
  let sub : OrderSubmission := ⟨unique_order_id, product_id, toString amount_usd⟩
  match t.env.marketOrderBuy unique_order_id product_id (toString amount_usd) with
  | .ok order => (sub, .dict order)
  | .error e => (sub, .failStr ("Failed to purchase " ++ product_id ++ ": " ++ e))

/-- Embedding of `send_email`: the try block is the transport call; any
exception is caught and only printed, so the function always returns
normally (`.ok ()`). -/
def send_email (transport : Except String Unit) : Except String Unit :=
  match transport with
  | .ok u => .ok u
  | .error _ => .ok ()

/-- Python's `str` of a bool, as interpolated into the summary line. -/
def pythonBool : Bool → String
  | true => "True"
  | false => "False"

/-- The summary line appended for one asset, from the `market_buy`
result: the `isinstance(result, dict)` branch reads
`result.get('success', False)`, the other branch reports the failure
string. -/
def purchaseLine (amount_usd : Int) (asset : String) : BuyResult → String
  | .dict d =>
    "Bought $" ++ toString amount_usd ++ " of " ++ asset ++ ". Success: " ++
      pythonBool (d.success.getD false)
  | .failStr s => "Purchase failed for " ++ asset ++ ": " ++ s

/-- The per-asset loop of `make_purchases`: for each `(asset, amount)`
pair in order, call `market_buy` (the k-th call observes clock tick
`i + k`) and collect the submission and the summary line. -/
def purchaseLoop (t : CoinbaseTrader) (i : Nat) :
    List (String × Int) → List OrderSubmission × List String
  | [] => ([], [])
  | (asset, amount_usd) :: rest =>
    let product_id := asset ++ "-USD"
    let (sub, result) := t.market_buy (t.env.now i) amount_usd product_id asset
    let line := purchaseLine amount_usd asset result
    let (subs, lines) := purchaseLoop t (i + 1) rest
    (sub :: subs, line :: lines)

/-- Observable trace of one invocation:
* `balanceRead` — whether `get_account_balance` was called;
* `availableBalance` — the balance it returned (`none` when not read);
* `orders` — the order submissions made, in order;
* `purchaseResults` — the collected summary lines, in order;
* `emailAttempted` — whether `send_email` was called;
* `emailOutcome` — when attempted, the transport outcome that
  `send_email` swallowed (`none` when no email was attempted). -/
structure Run where
  balanceRead : Bool
  availableBalance : Option Rat
  orders : List OrderSubmission
  purchaseResults : List String
  emailAttempted : Bool
  emailOutcome : Option (Except String Unit)
deriving Repr

/-- The asset plan hard-coded in `make_purchases`
(`\x7b'BTC': 100, 'ETH': 100\x7d`, in insertion order). -/
def asset_amounts : List (String × Int) := [("BTC", 100), ("ETH", 100)]

/-- Embedding of the scheduled function `make_purchases`, parametrised
by the asset plan (the source hard-codes `asset_amounts`).  The result
is `.ok trace` when the invocation returns normally; `.error` would model
an exception escaping to the scheduler.  The structure mirrors the
source: a try/except around client construction (only `ValueError` is
ever raised there, and it is caught and returns early), then the balance
read, the all-or-nothing gate, the purchase loop, and the best-effort
summary email. -/
def make_purchases (plan : List (String × Int)) (env : Env) : Except String Run :=
  match CoinbaseTrader.make env.apiKey env.apiSecret env with
  | .error _ =>
    .ok
      { balanceRead := false
        availableBalance := none
        orders := []
        purchaseResults := []
        emailAttempted := false
        emailOutcome := none }
  | .ok trader =>
    let total_required : Int := (plan.map Prod.snd).sum
    let available_balance := trader.get_account_balance
    if available_balance < (total_required : Rat) then
      .ok
        { balanceRead := true
          availableBalance := some available_balance
          orders := []
          purchaseResults := []
          emailAttempted := false
          emailOutcome := none }
    else
      let res := purchaseLoop trader 0 plan
      let _emailResult := send_email env.emailTransport
      .ok
        { balanceRead := true
          availableBalance := some available_balance
          orders := res.1
          purchaseResults := res.2
          emailAttempted := true
          emailOutcome := some env.emailTransport }

/-! Helper lemmas about the embedding. -/

/-- A `market_buy` call always makes exactly one submission, with the
timestamp-plus-asset client order id, whatever the broker returns. -/
theorem market_buy_fst (t : CoinbaseTrader) (now : DateTime) (amount_usd : Int)
    (product_id asset_name : String) :
    (t.market_buy now amount_usd product_id asset_name).1 =
      ⟨now.strftimeYmdHMS ++ "_" ++ asset_name, product_id, toString amount_usd⟩ := by
  cases h : t.env.marketOrderBuy (now.strftimeYmdHMS ++ "_" ++ asset_name) product_id
      (toString amount_usd) <;> simp [CoinbaseTrader.market_buy, h]

/-- When the broker call succeeds, `market_buy` returns the order dict. -/
theorem market_buy_snd_ok (t : CoinbaseTrader) (now : DateTime) (amount_usd : Int)
    (product_id asset_name : String) (d : OrderDict)
    (h : t.env.marketOrderBuy (now.strftimeYmdHMS ++ "_" ++ asset_name) product_id
        (toString amount_usd) = .ok d) :
    (t.market_buy now amount_usd product_id asset_name).2 = .dict d := by
  simp [CoinbaseTrader.market_buy, h]

/-- When the broker call raises, `market_buy` returns the failure string. -/
theorem market_buy_snd_error (t : CoinbaseTrader) (now : DateTime) (amount_usd : Int)
    (product_id asset_name : String) (e : String)
    (h : t.env.marketOrderBuy (now.strftimeYmdHMS ++ "_" ++ asset_name) product_id
        (toString amount_usd) = .error e) :
    (t.market_buy now amount_usd product_id asset_name).2 =
      .failStr ("Failed to purchase " ++ product_id ++ ": " ++ e) := by
  simp [CoinbaseTrader.market_buy, h]

/-- Unfolding of one loop iteration. -/
theorem purchaseLoop_cons (t : CoinbaseTrader) (i : Nat) (asset : String)
    (amount_usd : Int) (rest : List (String × Int)) :
    purchaseLoop t i ((asset, amount_usd) :: rest) =
      ((t.market_buy (t.env.now i) amount_usd (asset ++ "-USD") asset).1 ::
          (purchaseLoop t (i + 1) rest).1,
        purchaseLine amount_usd asset
            (t.market_buy (t.env.now i) amount_usd (asset ++ "-USD") asset).2 ::
          (purchaseLoop t (i + 1) rest).2) :=
  rfl

/-- The loop makes one submission per planned asset. -/
theorem purchaseLoop_fst_length (t : CoinbaseTrader) :
    ∀ (plan : List (String × Int)) (i : Nat),
      (purchaseLoop t i plan).1.length = plan.length := by
  intro plan
  induction plan with
  | nil => intro i; rfl
  | cons hd tl ih =>
    intro i
    obtain ⟨asset, amount⟩ := hd
    rw [purchaseLoop_cons]
    simp [ih (i + 1)]

/-- The loop collects one summary line per planned asset. -/
theorem purchaseLoop_snd_length (t : CoinbaseTrader) :
    ∀ (plan : List (String × Int)) (i : Nat),
      (purchaseLoop t i plan).2.length = plan.length := by
  intro plan
  induction plan with
  | nil => intro i; rfl
  | cons hd tl ih =>
    intro i
    obtain ⟨asset, amount⟩ := hd
    rw [purchaseLoop_cons]
    simp [ih (i + 1)]

/-- The k-th submission of the loop started at clock tick `i` is the
order for the k-th planned asset, stamped with clock tick `i + k`. -/
theorem purchaseLoop_fst_getElem (t : CoinbaseTrader) :
    ∀ (plan : List (String × Int)) (i k : Nat) (a : String) (amt : Int),
      plan[k]? = some (a, amt) →
      (purchaseLoop t i plan).1[k]? =
        some ⟨(t.env.now (i + k)).strftimeYmdHMS ++ "_" ++ a, a ++ "-USD", toString amt⟩ := by
  intro plan
  induction plan with
  | nil => intro i k a amt h; simp at h
  | cons hd tl ih =>
    intro i k a amt h
    obtain ⟨asset, amount⟩ := hd
    rw [purchaseLoop_cons]
    cases k with
    | zero =>
      simp only [List.getElem?_cons_zero, Option.some.injEq, Prod.mk.injEq] at h
      simp [market_buy_fst, h.1, h.2]
    | succ k =>
      simp only [List.getElem?_cons_succ] at h
      have := ih (i + 1) k a amt h
      simpa [Nat.add_assoc, Nat.add_comm 1 k] using this

/-- The k-th summary line of the loop started at clock tick `i` is the
line built from the `market_buy` result for the k-th planned asset. -/
theorem purchaseLoop_snd_getElem (t : CoinbaseTrader) :
    ∀ (plan : List (String × Int)) (i k : Nat) (a : String) (amt : Int),
      plan[k]? = some (a, amt) →
      (purchaseLoop t i plan).2[k]? =
        some (purchaseLine amt a
          (t.market_buy (t.env.now (i + k)) amt (a ++ "-USD") a).2) := by
  intro plan
  induction plan with
  | nil => intro i k a amt h; simp at h
  | cons hd tl ih =>
    intro i k a amt h
    obtain ⟨asset, amount⟩ := hd
    rw [purchaseLoop_cons]
    cases k with
    | zero =>
      simp only [List.getElem?_cons_zero, Option.some.injEq, Prod.mk.injEq] at h
      simp [h.1, h.2]
    | succ k =>
      simp only [List.getElem?_cons_succ] at h
      have := ih (i + 1) k a amt h
      simpa [Nat.add_assoc, Nat.add_comm 1 k] using this

/-- The product ids submitted by the loop are the planned assets
suffixed with `-USD`, in plan order. -/
theorem purchaseLoop_fst_map_product (t : CoinbaseTrader) :
    ∀ (plan : List (String × Int)) (i : Nat),
      (purchaseLoop t i plan).1.map OrderSubmission.product_id =
        plan.map (fun p => p.1 ++ "-USD") := by
  intro plan
  induction plan with
  | nil => intro i; rfl
  | cons hd tl ih =>
    intro i
    obtain ⟨asset, amount⟩ := hd
    rw [purchaseLoop_cons]
    simp [market_buy_fst, ih (i + 1)]

/-- When either credential is falsy, `make_purchases` takes the caught
`ValueError` path: no balance read, no orders, no email. -/
theorem make_purchases_init_fail (plan : List (String × Int)) (env : Env)
    (h : (isFalsy env.apiKey || isFalsy env.apiSecret) = true) :
    make_purchases plan env = .ok ⟨false, none, [], [], false, none⟩ := by
  simp only [make_purchases, CoinbaseTrader.make, h, if_true, reduceIte]

/-- When the credentials are present but the balance is below the plan
total, `make_purchases` stops at the gate: no orders, no email. -/
theorem make_purchases_gate_fail (plan : List (String × Int)) (env : Env)
    (h : (isFalsy env.apiKey || isFalsy env.apiSecret) = false)
    (hgate : CoinbaseTrader.get_account_balance ⟨env⟩ < ((plan.map Prod.snd).sum : Rat)) :
    make_purchases plan env =
      .ok ⟨true, some (CoinbaseTrader.get_account_balance ⟨env⟩), [], [], false, none⟩ := by
  simp only [make_purchases, CoinbaseTrader.make, h, Bool.false_eq_true, if_false, reduceIte]
  rw [if_pos hgate]

/-- When the credentials are present and the balance covers the plan
total, `make_purchases` runs the purchase loop and sends the email. -/
theorem make_purchases_pass (plan : List (String × Int)) (env : Env)
    (h : (isFalsy env.apiKey || isFalsy env.apiSecret) = false)
    (hgate : ((plan.map Prod.snd).sum : Rat) ≤ CoinbaseTrader.get_account_balance ⟨env⟩) :
    make_purchases plan env =
      .ok ⟨true, some (CoinbaseTrader.get_account_balance ⟨env⟩),
        (purchaseLoop ⟨env⟩ 0 plan).1, (purchaseLoop ⟨env⟩ 0 plan).2,
        true, some env.emailTransport⟩ := by
  simp only [make_purchases, CoinbaseTrader.make, h, Bool.false_eq_true, if_false, reduceIte]
  rw [if_neg (not_lt.mpr hgate)]

/-- Scanning a list with no USD account yields balance 0. -/
theorem findUSDBalance_eq_zero :
    ∀ l : List Account, (∀ a ∈ l, ¬ a.currency = some "USD") → findUSDBalance l = 0 := by
  intro l
  induction l with
  | nil => intro _; rfl
  | cons hd tl ih =>
    intro h
    unfold findUSDBalance
    rw [if_neg (h hd (List.mem_cons_self hd tl))]
    exact ih fun a ha => h a (List.mem_cons_of_mem hd ha)

/-- Strings ending in the distinct literal suffixes `_BTC` and `_ETH`
are distinct, whatever their prefixes. -/
theorem append_btc_ne_append_eth (s t : String) :
    ¬ (s ++ "_" ++ "BTC" = t ++ "_" ++ "ETH") := by
  intro h
  have h2 := congrArg (fun x => x.data.reverse.head?) h
  simp only [String.data_append, List.reverse_append] at h2
  simp at h2

/-- The purchase loop only reads the clock and the broker from the
environment; the email transport does not influence it. -/
theorem purchaseLoop_congr (e1 e2 : Env) (hn : e1.now = e2.now)
    (hm : e1.marketOrderBuy = e2.marketOrderBuy) :
    ∀ (plan : List (String × Int)) (i : Nat),
      purchaseLoop ⟨e1⟩ i plan = purchaseLoop ⟨e2⟩ i plan := by
  intro plan
  induction plan with
  | nil => intro i; rfl
  | cons hd tl ih =>
    intro i
    obtain ⟨asset, amount⟩ := hd
    rw [purchaseLoop_cons, purchaseLoop_cons, ih (i + 1)]
    unfold CoinbaseTrader.market_buy
    simp only [hn, hm]

/-! Concrete environments used to witness the theorems below. -/

/-- A fully healthy environment: credentials set, one USD account with
balance 250, a broker that accepts every order, a working transport. -/
def envAllOk : Env :=
  { apiKey := some "key"
    apiSecret := some "secret"
    getAccounts := .ok [⟨some "USD", some 250⟩]
    marketOrderBuy := fun _ _ _ => .ok ⟨some true⟩
    now := fun _ => ⟨2024, 1, 2, 3, 4, 5⟩
    emailTransport := .ok () }

/-- Like `envAllOk` but the USD balance is only 150 (below the 200
required by the hard-coded plan). -/
def envLowBalance : Env :=
  { envAllOk with getAccounts := .ok [⟨some "USD", some 150⟩] }

/-- Like `envAllOk` but the first brokerage credential is absent. -/
def envNoCreds : Env :=
  { envAllOk with apiKey := none }

/-- Like `envAllOk` but the broker rejects the BTC order and accepts
the rest. -/
def envBtcFails : Env :=
  { envAllOk with
      marketOrderBuy := fun _ product_id _ =>
        if product_id = "BTC-USD" then .error "rejected" else .ok ⟨some true⟩ }

/-- Like `envAllOk` but every broker call raises. -/
def envBrokerErr : Env :=
  { envAllOk with marketOrderBuy := fun _ _ _ => .error "rejected" }

/-- Like `envAllOk` but the account query raises. -/
def envErrAccounts : Env :=
  { envAllOk with getAccounts := .error "network down" }

/-- Like `envAllOk` but no USD account exists. -/
def envNoUSD : Env :=
  { envAllOk with getAccounts := .ok [⟨some "EUR", some 10⟩] }

/-- Like `envAllOk` but the broker's order dicts lack a `'success'`
key. -/
def envNoSuccess : Env :=
  { envAllOk with marketOrderBuy := fun _ _ _ => .ok ⟨none⟩ }
/-- The run produced by `envAllOk` on the hard-coded plan. -/
def runAllOk : Run :=
  ⟨true, some 250,
    [⟨"20240102030405_BTC", "BTC-USD", "100"⟩, ⟨"20240102030405_ETH", "ETH-USD", "100"⟩],
    ["Bought $100 of BTC. Success: True", "Bought $100 of ETH. Success: True"],
    true, some (.ok ())⟩

/-- The run produced by `envAllOk` with a failing email transport. -/
def runAllOkBadEmail : Run :=
  ⟨true, some 250,
    [⟨"20240102030405_BTC", "BTC-USD", "100"⟩, ⟨"20240102030405_ETH", "ETH-USD", "100"⟩],
    ["Bought $100 of BTC. Success: True", "Bought $100 of ETH. Success: True"],
    true, some (.error "smtp down")⟩

/-- The run produced by `envBtcFails` on the hard-coded plan. -/
def runBtcFails : Run :=
  ⟨true, some 250,
    [⟨"20240102030405_BTC", "BTC-USD", "100"⟩, ⟨"20240102030405_ETH", "ETH-USD", "100"⟩],
    ["Purchase failed for BTC: Failed to purchase BTC-USD: rejected",
      "Bought $100 of ETH. Success: True"],
    true, some (.ok ())⟩

/-- The run produced by `envNoSuccess` on the hard-coded plan. -/
def runNoSuccess : Run :=
  ⟨true, some 250,
    [⟨"20240102030405_BTC", "BTC-USD", "100"⟩, ⟨"20240102030405_ETH", "ETH-USD", "100"⟩],
    ["Bought $100 of BTC. Success: False", "Bought $100 of ETH. Success: False"],
    true, some (.ok ())⟩

/-- The run produced by `envLowBalance` on the hard-coded plan. -/
def runLowBalance : Run := ⟨true, some 150, [], [], false, none⟩

/-- The run produced by `envNoCreds` on any plan. -/
def runNoCreds : Run := ⟨false, none, [], [], false, none⟩

/-! The claims. -/

/-- C1: For every asset plan and balance where the sum of the planned
amounts exceeds the available balance, `make_purchases` submits zero
orders and sends no notification email (all-or-nothing gate at the plan
level). -/
theorem C1_insufficient_plan_no_orders_no_email (plan : List (String × Int)) (env : Env)
    (r : Run)
    (hgate : CoinbaseTrader.get_account_balance ⟨env⟩ < ((plan.map Prod.snd).sum : Rat))
    (hrun : make_purchases plan env = Except.ok r) :
    r.orders = [] ∧ r.emailAttempted = false := by
  cases h : (isFalsy env.apiKey || isFalsy env.apiSecret) with
  | true =>
    rw [make_purchases_init_fail plan env h] at hrun
    injection hrun with h2
    subst h2
    exact ⟨rfl, rfl⟩
  | false =>
    rw [make_purchases_gate_fail plan env h hgate] at hrun
    injection hrun with h2
    subst h2
    exact ⟨rfl, rfl⟩

/-- C1 witness: plan total 200, balance 150: no orders, no email. -/
theorem C1_witness :
    runLowBalance.orders = [] ∧ runLowBalance.emailAttempted = false :=
  C1_insufficient_plan_no_orders_no_email asset_amounts envLowBalance runLowBalance
    (by decide) (by rfl)

/-- C2: For every asset plan and balance where the sum of the planned
amounts is at most the available balance (and the credentials are
present, so the run reaches the gate), `make_purchases` performs exactly
one order submission attempt per planned asset, in the plan's iteration
order: the submitted product ids are exactly the planned assets suffixed
with `-USD`, in plan order. -/
theorem C2_sufficient_plan_one_attempt_per_asset (plan : List (String × Int)) (env : Env)
    (r : Run)
    (hcreds : (isFalsy env.apiKey || isFalsy env.apiSecret) = false)
    (hgate : ((plan.map Prod.snd).sum : Rat) ≤ CoinbaseTrader.get_account_balance ⟨env⟩)
    (hrun : make_purchases plan env = Except.ok r) :
    r.orders.map OrderSubmission.product_id = plan.map (fun p => p.1 ++ "-USD") := by
  rw [make_purchases_pass plan env hcreds hgate] at hrun
  injection hrun with h2
  subst h2
  exact purchaseLoop_fst_map_product ⟨env⟩ plan 0

/-- C2 witness: plan total 200, balance 250: the two submissions are
BTC-USD then ETH-USD. -/
theorem C2_witness :
    runAllOk.orders.map OrderSubmission.product_id =
      asset_amounts.map (fun p => p.1 ++ "-USD") :=
  C2_sufficient_plan_one_attempt_per_asset asset_amounts envAllOk runAllOk
    (by decide) (by decide) (by rfl)

/-- C3: For every plan that passes the balance gate, a failing order for
an earlier asset does not prevent the order attempt for any later asset:
whatever the broker does, every planned asset is attempted and
contributes exactly one summary line (a success line or a failure line
for that asset). -/
theorem C3_partial_failure_tolerant (plan : List (String × Int)) (env : Env) (r : Run)
    (hcreds : (isFalsy env.apiKey || isFalsy env.apiSecret) = false)
    (hgate : ((plan.map Prod.snd).sum : Rat) ≤ CoinbaseTrader.get_account_balance ⟨env⟩)
    (hrun : make_purchases plan env = Except.ok r) :
    r.orders.length = plan.length ∧ r.purchaseResults.length = plan.length ∧
    ∀ (k : Nat) (a : String) (amt : Int), plan[k]? = some (a, amt) →
      ∃ l, r.purchaseResults[k]? = some l ∧
        ((∃ flag, l = "Bought $" ++ toString amt ++ " of " ++ a ++ ". Success: " ++
            pythonBool flag) ∨
          (∃ s, l = "Purchase failed for " ++ a ++ ": " ++ s)) := by
  rw [make_purchases_pass plan env hcreds hgate] at hrun
  injection hrun with h2
  subst h2
  refine ⟨purchaseLoop_fst_length ⟨env⟩ plan 0, purchaseLoop_snd_length ⟨env⟩ plan 0, ?_⟩
  intro k a amt hk
  refine ⟨purchaseLine amt a
    ((⟨env⟩ : CoinbaseTrader).market_buy (env.now (0 + k)) amt (a ++ "-USD") a).2,
    purchaseLoop_snd_getElem ⟨env⟩ plan 0 k a amt hk, ?_⟩
  cases ((⟨env⟩ : CoinbaseTrader).market_buy (env.now (0 + k)) amt (a ++ "-USD") a).2 with
  | dict d => exact Or.inl ⟨d.success.getD false, rfl⟩
  | failStr s => exact Or.inr ⟨s, rfl⟩

/-- C3 witness: the BTC order fails, yet both assets are attempted and
each contributes one summary line. -/
theorem C3_witness :
    runBtcFails.orders.length = asset_amounts.length ∧
    runBtcFails.purchaseResults.length = asset_amounts.length ∧
    ∀ (k : Nat) (a : String) (amt : Int), asset_amounts[k]? = some (a, amt) →
      ∃ l, runBtcFails.purchaseResults[k]? = some l ∧
        ((∃ flag, l = "Bought $" ++ toString amt ++ " of " ++ a ++ ". Success: " ++
            pythonBool flag) ∨
          (∃ s, l = "Purchase failed for " ++ a ++ ": " ++ s)) :=
  C3_partial_failure_tolerant asset_amounts envBtcFails runBtcFails
    (by decide) (by decide) (by rfl)

/-- C4: If either brokerage credential is absent or empty,
`make_purchases` aborts immediately: no balance read occurs, no order is
attempted, and no notification email is sent. -/
theorem C4_missing_credentials_abort (plan : List (String × Int)) (env : Env) (r : Run)
    (h : isFalsy env.apiKey = true ∨ isFalsy env.apiSecret = true)
    (hrun : make_purchases plan env = Except.ok r) :
    r.balanceRead = false ∧ r.availableBalance = none ∧ r.orders = [] ∧
      r.emailAttempted = false := by
  have hb : (isFalsy env.apiKey || isFalsy env.apiSecret) = true := by
    rcases h with h | h <;> simp [h]
  rw [make_purchases_init_fail plan env hb] at hrun
  injection hrun with h2
  subst h2
  exact ⟨rfl, rfl, rfl, rfl⟩

/-- C4 witness: absent API key: no balance read, no orders, no email. -/
theorem C4_witness :
    runNoCreds.balanceRead = false ∧ runNoCreds.availableBalance = none ∧
      runNoCreds.orders = [] ∧ runNoCreds.emailAttempted = false :=
  C4_missing_credentials_abort asset_amounts envNoCreds runNoCreds (Or.inl rfl) (by rfl)

/-- C5: `get_account_balance` returns zero whenever the account query
raises, and whenever no account with currency `USD` exists in the listed
accounts; being total, it never propagates the error to the caller. -/
theorem C5_get_account_balance_fails_to_zero (env : Env) :
    (∀ e, env.getAccounts = Except.error e →
      CoinbaseTrader.get_account_balance ⟨env⟩ = 0) ∧
    (∀ accounts, env.getAccounts = Except.ok accounts →
      (∀ a ∈ accounts, ¬ a.currency = some "USD") →
      CoinbaseTrader.get_account_balance ⟨env⟩ = 0) := by
  constructor
  · intro e he
    simp [CoinbaseTrader.get_account_balance, he]
  · intro accounts ha hnone
    simp [CoinbaseTrader.get_account_balance, ha, findUSDBalance_eq_zero accounts hnone]

/-- C5 witness: a raising account query and a USD-less account list both
yield balance 0. -/
theorem C5_witness :
    CoinbaseTrader.get_account_balance ⟨envErrAccounts⟩ = 0 ∧
    CoinbaseTrader.get_account_balance ⟨envNoUSD⟩ = 0 :=
  ⟨(C5_get_account_balance_fails_to_zero envErrAccounts).1 "network down" rfl,
    (C5_get_account_balance_fails_to_zero envNoUSD).2 [⟨some "EUR", some 10⟩] rfl
      (by decide)⟩

/-- C6: Whenever the broker call raises, `market_buy` (called as the
program calls it, with product id `asset ++ "-USD"`) catches the
exception and returns the failure string, which carries the asset and
the error message; being total, it raises nothing. -/
theorem C6_market_buy_failure_description (t : CoinbaseTrader) (now : DateTime)
    (amount_usd : Int) (asset msg : String)
    (h : t.env.marketOrderBuy (now.strftimeYmdHMS ++ "_" ++ asset) (asset ++ "-USD")
        (toString amount_usd) = Except.error msg) :
    (t.market_buy now amount_usd (asset ++ "-USD") asset).2 =
      .failStr ("Failed to purchase " ++ (asset ++ "-USD") ++ ": " ++ msg) :=
  market_buy_snd_error t now amount_usd (asset ++ "-USD") asset msg h

/-- C6 witness: a rejected BTC order yields the failure string with the
asset and the broker's message. -/
theorem C6_witness :
    ((⟨envBrokerErr⟩ : CoinbaseTrader).market_buy ⟨2024, 1, 2, 3, 4, 5⟩ 100
        ("BTC" ++ "-USD") "BTC").2 =
      .failStr ("Failed to purchase " ++ ("BTC" ++ "-USD") ++ ": " ++ "rejected") :=
  C6_market_buy_failure_description ⟨envBrokerErr⟩ ⟨2024, 1, 2, 3, 4, 5⟩ 100
    "BTC" "rejected" rfl
/-- C7: `send_email` swallows every transport failure: it returns
normally whatever the transport does, and the outcome of the order
placement already performed (orders, summary lines, whether the email
was attempted, the balance snapshot) never depends on the transport. -/
theorem C7_notification_failure_is_swallowed :
    (∀ t, send_email t = Except.ok ()) ∧
    (∀ (plan : List (String × Int)) (env : Env) (t : Except String Unit) (r r' : Run),
      make_purchases plan env = Except.ok r →
      make_purchases plan { env with emailTransport := t } = Except.ok r' →
      r'.orders = r.orders ∧ r'.purchaseResults = r.purchaseResults ∧
        r'.emailAttempted = r.emailAttempted ∧ r'.availableBalance = r.availableBalance) := by
  constructor
  · intro t
    cases t with
    | ok u => cases u; rfl
    | error e => rfl
  · intro plan env t r r' hr hr'
    cases hc : (isFalsy env.apiKey || isFalsy env.apiSecret) with
    | true =>
      rw [make_purchases_init_fail plan env hc] at hr
      rw [make_purchases_init_fail plan { env with emailTransport := t } hc] at hr'
      injection hr with h1
      injection hr' with h2
      subst h1
      subst h2
      exact ⟨rfl, rfl, rfl, rfl⟩
    | false =>
      by_cases hlt : CoinbaseTrader.get_account_balance ⟨env⟩ < ((plan.map Prod.snd).sum : Rat)
      · rw [make_purchases_gate_fail plan env hc hlt] at hr
        rw [make_purchases_gate_fail plan { env with emailTransport := t } hc hlt] at hr'
        injection hr with h1
        injection hr' with h2
        subst h1
        subst h2
        exact ⟨rfl, rfl, rfl, rfl⟩
      · have hge := not_lt.mp hlt
        rw [make_purchases_pass plan env hc hge] at hr
        rw [make_purchases_pass plan { env with emailTransport := t } hc hge] at hr'
        injection hr with h1
        injection hr' with h2
        subst h1
        subst h2
        have hloop := purchaseLoop_congr { env with emailTransport := t } env rfl rfl plan 0
        rw [hloop]
        exact ⟨rfl, rfl, rfl, rfl⟩

/-- C7 witness: a raising transport is swallowed, and the run with the
broken transport places the same orders and lines as the healthy one. -/
theorem C7_witness :
    send_email (Except.error "smtp down") = Except.ok () ∧
    (runAllOkBadEmail.orders = runAllOk.orders ∧
      runAllOkBadEmail.purchaseResults = runAllOk.purchaseResults ∧
      runAllOkBadEmail.emailAttempted = runAllOk.emailAttempted ∧
      runAllOkBadEmail.availableBalance = runAllOk.availableBalance) :=
  ⟨C7_notification_failure_is_swallowed.1 (Except.error "smtp down"),
    C7_notification_failure_is_swallowed.2 asset_amounts envAllOk (Except.error "smtp down")
      runAllOk runAllOkBadEmail (by rfl) (by rfl)⟩

/-- C8: In a run that reaches the purchase loop, every order submission
carries a client order id formed from the current timestamp formatted at
second resolution plus the asset name; and for the program's hard-coded
plan the ids of one invocation are pairwise distinct. -/
theorem C8_client_order_ids (plan : List (String × Int)) (env : Env) (r : Run)
    (hcreds : (isFalsy env.apiKey || isFalsy env.apiSecret) = false)
    (hgate : ((plan.map Prod.snd).sum : Rat) ≤ CoinbaseTrader.get_account_balance ⟨env⟩)
    (hrun : make_purchases plan env = Except.ok r) :
    (∀ (k : Nat) (a : String) (amt : Int), plan[k]? = some (a, amt) →
      ∃ o, r.orders[k]? = some o ∧
        o.client_order_id = (env.now k).strftimeYmdHMS ++ "_" ++ a) ∧
    (plan = asset_amounts → (r.orders.map OrderSubmission.client_order_id).Nodup) := by
  rw [make_purchases_pass plan env hcreds hgate] at hrun
  injection hrun with h2
  subst h2
  constructor
  · intro k a amt hk
    refine ⟨⟨(env.now k).strftimeYmdHMS ++ "_" ++ a, a ++ "-USD", toString amt⟩, ?_, rfl⟩
    have h := purchaseLoop_fst_getElem ⟨env⟩ plan 0 k a amt hk
    simpa [Nat.zero_add] using h
  · intro hplan
    subst hplan
    have hmap : ((purchaseLoop ⟨env⟩ 0 asset_amounts).1.map OrderSubmission.client_order_id) =
        [(env.now 0).strftimeYmdHMS ++ "_" ++ "BTC",
          (env.now 1).strftimeYmdHMS ++ "_" ++ "ETH"] := by
      simp [asset_amounts, purchaseLoop_cons, market_buy_fst, purchaseLoop]
    rw [hmap]
    simp only [List.nodup_cons, List.mem_singleton, List.mem_nil_iff, or_false,
      List.nodup_nil, and_true, List.not_mem_nil, not_false_iff]
    exact append_btc_ne_append_eth (env.now 0).strftimeYmdHMS (env.now 1).strftimeYmdHMS

/-- C8 witness: in the healthy run the two ids are stamped with the
timestamp and the asset names and are distinct. -/
theorem C8_witness :
    (∀ (k : Nat) (a : String) (amt : Int), asset_amounts[k]? = some (a, amt) →
      ∃ o, runAllOk.orders[k]? = some o ∧
        o.client_order_id = (envAllOk.now k).strftimeYmdHMS ++ "_" ++ a) ∧
    (asset_amounts = asset_amounts →
      (runAllOk.orders.map OrderSubmission.client_order_id).Nodup) :=
  C8_client_order_ids asset_amounts envAllOk runAllOk (by decide) (by decide) (by rfl)

/-- C9: The scheduled invocation returns normally (no exception escapes
to the scheduler) on every path: missing credentials, balance-read
failure, the insufficient-funds gate, and the full purchase path. -/
theorem C9_returns_normally (plan : List (String × Int)) (env : Env) :
    ∃ r, make_purchases plan env = Except.ok r := by
  cases hc : (isFalsy env.apiKey || isFalsy env.apiSecret) with
  | true => exact ⟨_, make_purchases_init_fail plan env hc⟩
  | false =>
    by_cases hlt : CoinbaseTrader.get_account_balance ⟨env⟩ < ((plan.map Prod.snd).sum : Rat)
    · exact ⟨_, make_purchases_gate_fail plan env hc hlt⟩
    · exact ⟨_, make_purchases_pass plan env hc (not_lt.mp hlt)⟩

/-- C10: When the broker returns an order dict that lacks a `'success'`
key, the summary line for that asset is the success-shaped line with the
flag reported as `False` — no exception occurs and no failure line is
produced for it. -/
theorem C10_missing_success_key_reports_false (plan : List (String × Int)) (env : Env)
    (r : Run) (k : Nat) (a : String) (amt : Int) (d : OrderDict)
    (hcreds : (isFalsy env.apiKey || isFalsy env.apiSecret) = false)
    (hgate : ((plan.map Prod.snd).sum : Rat) ≤ CoinbaseTrader.get_account_balance ⟨env⟩)
    (hrun : make_purchases plan env = Except.ok r)
    (hk : plan[k]? = some (a, amt))
    (hbroker : env.marketOrderBuy ((env.now k).strftimeYmdHMS ++ "_" ++ a) (a ++ "-USD")
        (toString amt) = Except.ok d)
    (hnone : d.success = none) :
    r.purchaseResults[k]? =
      some ("Bought $" ++ toString amt ++ " of " ++ a ++ ". Success: " ++ "False") := by
  rw [make_purchases_pass plan env hcreds hgate] at hrun
  injection hrun with h2
  subst h2
  have hline := purchaseLoop_snd_getElem ⟨env⟩ plan 0 k a amt hk
  have hsnd := market_buy_snd_ok ⟨env⟩ (env.now (0 + k)) amt (a ++ "-USD") a d
    (by simpa [Nat.zero_add] using hbroker)
  rw [hsnd] at hline
  simpa [purchaseLine, hnone, pythonBool] using hline

/-- C10 witness: the broker accepts the BTC order but its dict has no
`'success'` key; the summary line reports `Success: False`. -/
theorem C10_witness :
    runNoSuccess.purchaseResults[0]? =
      some ("Bought $" ++ toString (100 : Int) ++ " of " ++ "BTC" ++ ". Success: " ++ "False") :=
  C10_missing_success_key_reports_false asset_amounts envNoSuccess runNoSuccess 0 "BTC" 100
    ⟨none⟩ (by decide) (by decide) (by rfl) (by rfl) (by rfl) (by rfl)
